import Mathlib

/-!
Shallow embedding of the TEBMODEL lung-nodule risk predictor (src/app.py).

Numeric values are modelled as rationals (the Python comparisons at stake use
the exact literals 0.2, 0.5, 8, 30, 50, for which rational arithmetic is
faithful).  Python dictionaries are modelled as association lists with unique
keys maintained by an insert-or-overwrite operation; a `KeyError` or
`IndexError` that Python would raise is modelled as `none`.
-/

namespace TEB

/-- The two model tiers held by the registry: `model_8mm` ("small") and
`model_30mm` ("large") in app.py. -/
inductive Tier
  | small
  | large
  deriving DecidableEq, Repr

/-- Model selection, app.py lines 148-158: `if nodule_diameter <= 8` pick the
8mm model, `elif nodule_diameter <= 30` pick the 30mm model, else report
"Nodule diameter out of predictive range" and return. -/
def select (nodule_diameter : ℚ) : Option Tier :=
  if nodule_diameter ≤ 8 then some Tier.small
  else if nodule_diameter ≤ 30 then some Tier.large
  else none

/-- The diameter widget, app.py line 146:
`st.number_input("Nodule Diameter (mm)", min_value=0.0, max_value=50.0, ...)`.
Streamlit only yields values inside the declared bounds. -/
def diameterWidgetOk (d : ℚ) : Prop := 0 ≤ d ∧ d ≤ 50

instance (d : ℚ) : Decidable (diameterWidgetOk d) := by
  unfold diameterWidgetOk; infer_instance

/-- Risk banding, app.py lines 175-180. -/
inductive Band
  | Low
  | Moderate
  | High
  deriving DecidableEq, Repr

/-- Risk classification, app.py lines 175-180:
`if malignancy_prob < 0.2` Low, `elif malignancy_prob < 0.5` Moderate,
else High. -/
def classify (malignancy_prob : ℚ) : Band :=
  if malignancy_prob < 0.2 then Band.Low
  else if malignancy_prob < 0.5 then Band.Moderate
  else Band.High

/-- Python `dict` assignment `d[k] = v`: overwrite the value at an existing
key in place, otherwise append the new binding at the end (insertion order). -/
def dictInsert : List (String × ℚ) → String → ℚ → List (String × ℚ)
  | [], k, v => [(k, v)]
  | (a, b) :: d, k, v =>
      if a = k then (k, v) :: d else (a, b) :: dictInsert d k v

/-- Python `dict` lookup `d[k]` (first—and, with `dictInsert`, only—binding
of the key; `none` models `KeyError`). -/
def dictGet : List (String × ℚ) → String → Option ℚ
  | [], _ => none
  | (a, b) :: d, k => if a = k then some b else dictGet d k

/-- The six continuous biomarker/age features that get a
`st.number_input(..., min_value=0.0, ...)` widget, app.py line 88. -/
def numericFeatures : List String :=
  ["Age", "CEA", "SCC", "Cyfra21_1", "NSE", "ProGRP"]

/-- The value `get_user_input` stores for one feature, app.py lines 84-104:
the selection diameter for 'Nodule diameter' (no widget at all — line 87
writes `nodule_diameter` directly), the number-input value for the six
numeric features, and the 0/1 selectbox value for everything else.
`numIn`/`selIn` stand for what the user put into the respective widget. -/
def featureValue (nodule_diameter : ℚ) (numIn selIn : String → ℚ)
    (feature : String) : ℚ :=
  if feature = "Nodule diameter" then nodule_diameter
  else if feature ∈ numericFeatures then numIn feature
  else selIn feature

/-- Inner loop of `get_user_input`, app.py lines 83-104: iterate over a slice
of the feature list, storing each feature's widget value into `input_data`. -/
def process_features (fv : String → ℚ) (input_data : List (String × ℚ))
    (features_list : List String) : List (String × ℚ) :=
  features_list.foldl (fun d f => dictInsert d f (fv f)) input_data

/-- `get_user_input`, app.py lines 71-113: split the feature list at
`len(features) // 2` into two columns and process both slices in order into
one `input_data` dict. -/
def get_user_input (features : List String) (nodule_diameter : ℚ)
    (numIn selIn : String → ℚ) : List (String × ℚ) :=
  let mid := features.length / 2
  let fv := featureValue nodule_diameter numIn selIn
  process_features fv (process_features fv [] (features.take mid))
    (features.drop mid)

/-- The dict comprehension of app.py line 118:
`{feature: input_data[feature] for feature in features}` — iterate the
schema's features in order, looking each one up in the record (`none` models
the `KeyError` on a missing feature).  The resulting single-row DataFrame is
the association list in insertion order. -/
def input_df (input_data : String → Option ℚ) (features : List String) :
    Option (List (String × ℚ)) :=
  features.foldl
    (fun acc f => acc.bind fun d => (input_data f).map fun v => dictInsert d f v)
    (some [])

/-- The ordered numeric row the model actually receives: the values of the
one-row DataFrame in column order. -/
def assembleVector (input_data : String → Option ℚ) (features : List String) :
    Option (List ℚ) :=
  (input_df input_data features).map (List.map Prod.snd)

/-- An opaque fitted classifier: `predict_proba` maps the one-row DataFrame to
a list of rows of per-class probabilities (shape `(n_rows, n_classes)`). -/
structure ModelHandle where
  predict_proba : List (String × ℚ) → List (List ℚ)

/-- `prediction[0][1]`, app.py lines 121-122: row 0, class index 1 of the
`predict_proba` output (`none` models an `IndexError`). -/
def malignancy_prob (model : ModelHandle) (df : List (String × ℚ)) : Option ℚ :=
  ((model.predict_proba df).get? 0).bind fun row => row.get? 1

/-- What `explainer.shap_values(input_df)` can return: one array per class
(a Python `list`) or a single array. -/
inductive ShapValues
  | single (a : List ℚ)
  | perClass (l : List (List ℚ))

/-- app.py line 131:
`shap_values[1] if isinstance(shap_values, list) else shap_values`
(`none` models the `IndexError` when the list has fewer than two slices). -/
def shap_plot_values : ShapValues → Option (List ℚ)
  | ShapValues.perClass l => l.get? 1
  | ShapValues.single a => some a

/-- `predict_and_explain`, app.py lines 116-138.  `shap_available` is the
module flag `SHAP_AVAILABLE`; `shap_compute` stands for building the
`TreeExplainer` and calling `shap_values` on the DataFrame, which may raise
(`Except.error`).  An exception inside the SHAP `try` block — including the
`IndexError` from slicing — is caught and `(malignancy_prob, None)` is
returned; a `KeyError` from the dict comprehension or an `IndexError` from
`prediction[0][1]` is NOT caught and propagates (the outer `none`). -/
def predict_and_explain (shap_available : Bool)
    (shap_compute : List (String × ℚ) → Except String ShapValues)
    (input_data : String → Option ℚ) (model : ModelHandle)
    (features : List String) : Option (ℚ × Option (List ℚ)) :=
  match input_df input_data features with
  | none => none
  | some df =>
    match malignancy_prob model df with
    | none => none
    | some p =>
      if shap_available then
        match shap_compute df with
        | Except.error _ => some (p, none)
        | Except.ok sv =>
          match shap_plot_values sv with
          | none => some (p, none)
          | some vals => some (p, some vals)
      else some (p, none)

/-- Outcome of one press of the "Predict Risk" button in `main`. -/
inductive MainResult
  | outOfRange
  | crashed
  | predicted (prob : ℚ) (band : Band) (shap_vals : Option (List ℚ))
  deriving DecidableEq

/-- One tier's run of the pipeline body of `main`, app.py lines 160-180:
collect the input record with the SAME `nodule_diameter` used for selection,
predict and explain, then band the probability. -/
def runTier (model : ModelHandle) (features : List String)
    (shap_available : Bool)
    (shap_compute : ModelHandle → List (String × ℚ) → Except String ShapValues)
    (nodule_diameter : ℚ) (numIn selIn : String → ℚ) : MainResult :=
  let input_data := get_user_input features nodule_diameter numIn selIn
  match predict_and_explain shap_available (shap_compute model)
      (fun f => dictGet input_data f) model features with
  | none => MainResult.crashed
  | some (p, sv) => MainResult.predicted p (classify p) sv

/-- `main`, app.py lines 141-180: select the tier from the diameter
(lines 148-158) and run the pipeline with that tier's model and feature
schema; out of range returns before any input is collected or any model is
touched. -/
def mainPipeline (model_8mm model_30mm : ModelHandle)
    (features_8mm features_30mm : List String) (shap_available : Bool)
    (shap_compute : ModelHandle → List (String × ℚ) → Except String ShapValues)
    (nodule_diameter : ℚ) (numIn selIn : String → ℚ) : MainResult :=
  match select nodule_diameter with
  | some Tier.small =>
      runTier model_8mm features_8mm shap_available shap_compute
        nodule_diameter numIn selIn
  | some Tier.large =>
      runTier model_30mm features_30mm shap_available shap_compute
        nodule_diameter numIn selIn
  | none => MainResult.outOfRange

/-- Names bound in the local scope of `main` (assignment targets inside the
body of `main`, app.py lines 141-195). -/
def mainLocalNames : List String :=
  ["nodule_diameter", "features", "model", "input_data", "malignancy_prob",
   "shap_plot_values", "result_col1", "result_col2", "col_shap1", "col_shap2",
   "fig", "ax", "col1", "col2"]

/-- Names bound at module level in app.py (imports and top-level
assignments), the global scope a name in `main` falls back to. -/
def moduleGlobalNames : List String :=
  ["os", "sys", "joblib", "st", "sklearn", "np", "packaging", "pd", "plt",
   "shap", "SHAP_AVAILABLE", "safe_load_model", "model_8mm", "model_30mm",
   "features_8mm", "features_30mm", "patch_numpy_version", "get_user_input",
   "predict_and_explain", "main"]

/-- Python name resolution for an expression inside `main`: a name evaluates
successfully iff it is a local of `main` or a module global. -/
def nameResolvesInMain (n : String) : Bool :=
  mainLocalNames.contains n || moduleGlobalNames.contains n

/-- The SHAP-rendering step of `main`, app.py lines 183-195: when
`SHAP_AVAILABLE and shap_plot_values is not None`, both charts are drawn by
`shap.summary_plot(shap_plot_values, input_df, ...)`, which evaluates the
name `input_df`; if that name does not resolve in `main`'s scope the call
raises `NameError`. -/
def renderAttribution (shap_available : Bool)
    (shap_plot_vals : Option (List ℚ)) : Except String Unit :=
  if shap_available && shap_plot_vals.isSome then
    if nameResolvesInMain "input_df" then Except.ok ()
    else Except.error "NameError"
  else Except.ok ()

/-! ### Helper lemmas about the dict model -/

theorem dictGet_dictInsert (d : List (String × ℚ)) (k : String) (v : ℚ)
    (k' : String) :
    dictGet (dictInsert d k v) k' = if k = k' then some v else dictGet d k' := by
  induction d with
  | nil => simp [dictInsert, dictGet]
  | cons hd tl ih =>
    obtain ⟨a, b⟩ := hd
    by_cases hak : a = k
    · subst hak
      by_cases hk' : a = k' <;> simp [dictInsert, dictGet, hk']
    · by_cases hk' : a = k'
      · subst hk'
        have hka : ¬ a = a → True := fun _ => trivial
        have hne : k ≠ a := fun h => hak h.symm
        simp [dictInsert, dictGet, hak, hne]
      · simp [dictInsert, dictGet, hak, hk', ih]

theorem dictInsert_of_fresh (d : List (String × ℚ)) (k : String) (v : ℚ)
    (h : k ∉ d.map Prod.fst) : dictInsert d k v = d ++ [(k, v)] := by
  induction d with
  | nil => simp [dictInsert]
  | cons hd tl ih =>
    obtain ⟨a, b⟩ := hd
    simp only [List.map_cons, List.mem_cons] at h
    push_neg at h
    have hak : a ≠ k := fun hh => h.1 hh.symm
    simp [dictInsert, hak, ih h.2]

theorem foldl_insert_eq (input_data : String → Option ℚ) (vals : String → ℚ) :
    ∀ (features : List String) (d : List (String × ℚ)),
      features.Nodup →
      (∀ f ∈ features, input_data f = some (vals f)) →
      (∀ f ∈ features, f ∉ d.map Prod.fst) →
      features.foldl
          (fun acc f => acc.bind fun d0 =>
            (input_data f).map fun v => dictInsert d0 f v) (some d)
        = some (d ++ features.map fun f => (f, vals f)) := by
  intro features
  induction features with
  | nil => intro d _ _ _; simp
  | cons f fs ih =>
    intro d hnd hvals hdisj
    have hf : input_data f = some (vals f) := hvals f (by simp)
    have hfresh : f ∉ d.map Prod.fst := hdisj f (by simp)
    have hnd' := hnd
    rw [List.nodup_cons] at hnd'
    simp only [List.foldl_cons, Option.bind_eq_bind, Option.some_bind, hf,
      Option.map_some, Option.map_some']
    rw [dictInsert_of_fresh d f (vals f) hfresh]
    rw [ih (d ++ [(f, vals f)]) hnd'.2 (fun g hg => hvals g (by simp [hg]))]
    · simp
    · intro g hg
      simp only [List.map_append, List.mem_append]
      push_neg
      refine ⟨hdisj g (by simp [hg]), ?_⟩
      simp only [List.map_cons, List.map_nil, List.mem_singleton]
      exact fun hgf => hnd'.1 (hgf ▸ hg)

theorem input_df_eq_map (features : List String) (input_data : String → Option ℚ)
    (vals : String → ℚ) (hnd : features.Nodup)
    (hvals : ∀ f ∈ features, input_data f = some (vals f)) :
    input_df input_data features = some (features.map fun f => (f, vals f)) := by
  have h := foldl_insert_eq input_data vals features [] hnd hvals (by simp)
  simpa [input_df] using h

theorem foldl_insert_isSome (input_data : String → Option ℚ) :
    ∀ (features : List String) (d : List (String × ℚ)),
      (∀ f ∈ features, (input_data f).isSome) →
      (features.foldl
          (fun acc f => acc.bind fun d0 =>
            (input_data f).map fun v => dictInsert d0 f v) (some d)).isSome := by
  intro features
  induction features with
  | nil => intro d _; simp
  | cons f fs ih =>
    intro d hvals
    obtain ⟨v, hv⟩ := Option.isSome_iff_exists.mp (hvals f (by simp))
    simp only [List.foldl_cons, Option.bind_eq_bind, Option.some_bind, hv,
      Option.map_some]
    exact ih (dictInsert d f v) (fun g hg => hvals g (by simp [hg]))

theorem input_df_isSome (features : List String) (input_data : String → Option ℚ)
    (hvals : ∀ f ∈ features, (input_data f).isSome) :
    (input_df input_data features).isSome :=
  foldl_insert_isSome input_data features [] hvals

theorem input_df_congr :
    ∀ (features : List String) (acc : Option (List (String × ℚ)))
      (r1 r2 : String → Option ℚ),
      (∀ f ∈ features, r1 f = r2 f) →
      features.foldl
          (fun a f => a.bind fun d0 => (r1 f).map fun v => dictInsert d0 f v) acc
        = features.foldl
          (fun a f => a.bind fun d0 => (r2 f).map fun v => dictInsert d0 f v) acc := by
  intro features
  induction features with
  | nil => intro acc r1 r2 _; rfl
  | cons f fs ih =>
    intro acc r1 r2 h
    simp only [List.foldl_cons, h f (by simp)]
    exact ih _ r1 r2 (fun g hg => h g (by simp [hg]))

theorem dictGet_process_features (fv : String → ℚ) :
    ∀ (fs : List String) (d : List (String × ℚ)) (k : String),
      dictGet (process_features fv d fs) k
        = if k ∈ fs then some (fv k) else dictGet d k := by
  intro fs
  induction fs with
  | nil => intro d k; simp [process_features]
  | cons f rest ih =>
    intro d k
    show dictGet (process_features fv (dictInsert d f (fv f)) rest) k = _
    rw [ih (dictInsert d f (fv f)) k, dictGet_dictInsert]
    by_cases hk : k ∈ rest
    · simp [hk]
    · by_cases hfk : f = k
      · subst hfk
        simp [hk]
      · have hkf : ¬ k = f := fun h => hfk h.symm
        simp [hk, hkf, hfk]

theorem get_user_input_eq (features : List String) (nodule_diameter : ℚ)
    (numIn selIn : String → ℚ) :
    get_user_input features nodule_diameter numIn selIn
      = process_features (featureValue nodule_diameter numIn selIn) []
          features := by
  unfold get_user_input process_features
  rw [← List.foldl_append, List.take_append_drop]

theorem dictGet_get_user_input (features : List String) (d : ℚ)
    (numIn selIn : String → ℚ) (k : String) :
    dictGet (get_user_input features d numIn selIn) k
      = if k ∈ features then some (featureValue d numIn selIn k) else none := by
  rw [get_user_input_eq, dictGet_process_features]
  simp [dictGet]

/-! ### Claim theorems -/

/-- C1 counterexample: the claim says a negative diameter fails selection with
`OutOfRangeError`, but the selection chain of app.py lines 148-158 starts with
`if nodule_diameter <= 8`, so a negative diameter such as -1 selects the
small (8mm) entry instead of failing. -/
theorem C1_counterexample : select (-1) = some Tier.small := by
  norm_num [select]

/-- C1 (amended): for every diameter ≤ 8 (hence all of [0, 8] and also the
boundary 8 itself) the small entry is selected; for 8 < d ≤ 30 the large
entry; selection fails exactly when d > 30.  A negative diameter does not
fail selection (it selects small), but it is unreachable: the diameter
widget enforces 0 ≤ d ≤ 50. -/
theorem C1_selection_amended (d : ℚ) :
    (select d = some Tier.small ↔ d ≤ 8) ∧
    (select d = some Tier.large ↔ 8 < d ∧ d ≤ 30) ∧
    (select d = none ↔ 30 < d) ∧
    (diameterWidgetOk d ↔ 0 ≤ d ∧ d ≤ 50) ∧
    select 8 = some Tier.small := by
  refine ⟨?_, ?_, ?_, Iff.rfl, by norm_num [select]⟩ <;>
    unfold select <;> split_ifs with h8 h30 <;>
    simp_all <;> intros <;> linarith

/-- C2: risk classification (app.py lines 175-180) is total with exact
thresholds: p < 0.2 is Low, 0.2 ≤ p < 0.5 is Moderate, p ≥ 0.5 is High;
in particular classify(0.2) = Moderate and classify(0.5) = High. -/
theorem C2_classify_thresholds (p : ℚ) :
    (classify p = Band.Low ↔ p < 0.2) ∧
    (classify p = Band.Moderate ↔ 0.2 ≤ p ∧ p < 0.5) ∧
    (classify p = Band.High ↔ 0.5 ≤ p) ∧
    classify 0.2 = Band.Moderate ∧ classify 0.5 = Band.High := by
  refine ⟨?_, ?_, ?_, by norm_num [classify], by norm_num [classify]⟩ <;>
    unfold classify <;> split_ifs with h1 h2 <;>
    simp_all <;> intros <;> linarith

/-- C5: app.py line 131 selects the positive-class attribution slice
explicitly: when `shap_values` is a list (one slice per class) the slice at
index 1 is taken — for any list with at least two slices this is the second
slice, never the first — and this is the same class index 1 that
`prediction[0][1]` (line 122) uses for the probability; when `shap_values`
is a single array it is used as-is. -/
theorem C5_positive_slice :
    (∀ a, shap_plot_values (ShapValues.single a) = some a) ∧
    (∀ l, shap_plot_values (ShapValues.perClass l) = l.get? 1) ∧
    (∀ a0 a1 rest,
      shap_plot_values (ShapValues.perClass (a0 :: a1 :: rest)) = some a1) ∧
    (∀ (model : ModelHandle) (df : List (String × ℚ)) (p0 p1 : ℚ)
        (ps : List ℚ) (rows : List (List ℚ)),
      model.predict_proba df = (p0 :: p1 :: ps) :: rows →
      malignancy_prob model df = some p1) := by
  refine ⟨fun a => rfl, fun l => rfl, fun a0 a1 rest => rfl, ?_⟩
  intro model df p0 p1 ps rows h
  simp [malignancy_prob, h]

/-- C5 witness: a concrete two-class output where the probability comes from
index 1. -/
theorem C5_witness :
    malignancy_prob ⟨fun _ => [[1/4, 3/4]]⟩ [] = some (3/4) :=
  C5_positive_slice.2.2.2 ⟨fun _ => [[1/4, 3/4]]⟩ [] (1/4) (3/4) [] [] rfl

/-- C7: `malignancy_prob` (app.py lines 121-122) returns exactly entry 1 of
row 0 of the model's two-class `predict_proba` output, unmodified (no
thresholding or rounding), and under the capability's contract that all
output entries are probabilities, that value lies in [0, 1]. -/
theorem C7_inference_output (model : ModelHandle) (df : List (String × ℚ))
    (p0 p1 : ℚ) (hshape : model.predict_proba df = [[p0, p1]])
    (hprob : ∀ row ∈ model.predict_proba df, ∀ q ∈ row, 0 ≤ q ∧ q ≤ 1) :
    malignancy_prob model df = some p1 ∧ 0 ≤ p1 ∧ p1 ≤ 1 := by
  have h1 : malignancy_prob model df = some p1 := by
    simp [malignancy_prob, hshape]
  have h2 := hprob [p0, p1] (by rw [hshape]; simp) p1 (by simp)
  exact ⟨h1, h2.1, h2.2⟩

/-- C7 witness: a concrete model whose two-class output is [2/3, 1/3]. -/
theorem C7_witness :
    malignancy_prob ⟨fun _ => [[2/3, 1/3]]⟩ [] = some (1/3) ∧
    (0 : ℚ) ≤ 1/3 ∧ (1/3 : ℚ) ≤ 1 :=
  C7_inference_output ⟨fun _ => [[2/3, 1/3]]⟩ [] (2/3) (1/3) rfl (by
    intro row hrow q hq
    simp at hrow
    subst hrow
    simp at hq
    rcases hq with h | h <;> rw [h] <;> norm_num)

/-- C8: a diameter above 30 makes `main` return at app.py line 158, before
`get_user_input` or `predict_and_explain` run: the outcome is out-of-range
for EVERY model, feature schema, user input and attribution capability, so
no vector is assembled and no model capability is invoked. -/
theorem C8_out_of_range_aborts (model_8mm model_30mm : ModelHandle)
    (features_8mm features_30mm : List String) (shap_available : Bool)
    (shap_compute : ModelHandle → List (String × ℚ) → Except String ShapValues)
    (d : ℚ) (numIn selIn : String → ℚ) (hd : 30 < d) :
    mainPipeline model_8mm model_30mm features_8mm features_30mm
      shap_available shap_compute d numIn selIn = MainResult.outOfRange := by
  have h8 : ¬ d ≤ 8 := by linarith
  have h30 : ¬ d ≤ 30 := by linarith
  unfold mainPipeline select
  simp [h8, h30]

/-- C8 witness: diameter 45 aborts the pipeline. -/
theorem C8_witness :
    mainPipeline ⟨fun _ => []⟩ ⟨fun _ => []⟩ [] [] true
      (fun _ _ => Except.error "e") 45 (fun _ => 0) (fun _ => 0)
      = MainResult.outOfRange :=
  C8_out_of_range_aborts ⟨fun _ => []⟩ ⟨fun _ => []⟩ [] [] true
    (fun _ _ => Except.error "e") 45 (fun _ => 0) (fun _ => 0) (by norm_num)

/-- C9: the name `input_df` is a local of `predict_and_explain`, not of
`main` and not a module global, so whenever SHAP is available and a non-None
attribution result reaches the rendering step (app.py lines 183-195), the
`shap.summary_plot(shap_plot_values, input_df, ...)` calls raise `NameError`
instead of displaying the charts. -/
theorem C9_render_undefined_name :
    nameResolvesInMain "input_df" = false ∧
    ∀ vals : List ℚ,
      renderAttribution true (some vals) = Except.error "NameError" := by
  constructor
  · decide
  · intro vals
    simp [renderAttribution, (by decide : nameResolvesInMain "input_df" = false)]

/-- C3: for a schema of distinct feature names and a record holding a value
for every schema feature, the dict comprehension of app.py line 118 yields a
row of exactly the schema's length whose i-th entry is the record's value
for the i-th schema feature — nothing dropped, reordered or deduplicated —
and the result only depends on the record's values at schema features, so
extra keys are ignored without error. -/
theorem C3_assemble_order (features : List String)
    (input_data : String → Option ℚ) (vals : String → ℚ)
    (hnd : features.Nodup)
    (hvals : ∀ f ∈ features, input_data f = some (vals f)) :
    ∃ row : List ℚ, assembleVector input_data features = some row ∧
      row.length = features.length ∧
      (∀ i (hi : i < features.length),
        row.get? i = some (vals (features.get ⟨i, hi⟩))) ∧
      (∀ r2 : String → Option ℚ, (∀ f ∈ features, r2 f = input_data f) →
        assembleVector r2 features = assembleVector input_data features) := by
  refine ⟨features.map vals, ?_, by simp, ?_, ?_⟩
  · unfold assembleVector
    rw [input_df_eq_map features input_data vals hnd hvals]
    simp [List.map_map, Function.comp]
  · intro i hi
    rw [List.get?_map, List.get?_eq_get hi]
    rfl
  · intro r2 h
    have hc := input_df_congr features (some []) r2 input_data h
    unfold assembleVector input_df
    rw [hc]

/-- C3 witness: a two-feature schema, a record with an extra key. -/
theorem C3_witness :
    ∃ row : List ℚ,
      assembleVector
        (fun f => if f = "Age" then some 60 else
          if f = "Gender" then some 1 else
          if f = "Extra" then some 9 else none)
        ["Age", "Gender"] = some row ∧
      row.length = (["Age", "Gender"] : List String).length ∧
      (∀ i (hi : i < (["Age", "Gender"] : List String).length),
        row.get? i = some ((fun f => if f = "Age" then (60 : ℚ) else
          if f = "Gender" then 1 else 0)
            ((["Age", "Gender"] : List String).get ⟨i, hi⟩))) ∧
      (∀ r2 : String → Option ℚ,
        (∀ f ∈ (["Age", "Gender"] : List String), r2 f =
          (fun f => if f = "Age" then some 60 else
            if f = "Gender" then some 1 else
            if f = "Extra" then some 9 else none) f) →
        assembleVector r2 ["Age", "Gender"] =
          assembleVector
            (fun f => if f = "Age" then some 60 else
              if f = "Gender" then some 1 else
              if f = "Extra" then some 9 else none) ["Age", "Gender"]) :=
  C3_assemble_order ["Age", "Gender"]
    (fun f => if f = "Age" then some 60 else
      if f = "Gender" then some 1 else
      if f = "Extra" then some 9 else none)
    (fun f => if f = "Age" then 60 else if f = "Gender" then 1 else 0)
    (by decide) (by decide)

/-- C4 counterexample: the claim says assembly fails with `DomainError` when
a continuous-nonnegative feature carries a negative value, but
`predict_and_explain` performs no domain validation: with Age = -5 the
pipeline assembles the row and delivers a prediction. -/
theorem C4_counterexample :
    predict_and_explain false (fun _ => Except.error "na")
      (fun f => if f = "Age" then some (-5) else none)
      ⟨fun _ => [[0, 1]]⟩ ["Age"] = some (1, none) := by
  decide

/-- C4 (amended): the core does NOT re-validate feature domains — assembly
accepts any value for a present feature (only a missing key aborts) — and
the domain constraints hold only because the input surface enforces them:
the number-input widgets have min 0, the selectboxes offer only {0, 1}, and
the diameter widget has min 0, so every value `get_user_input` can store is
nonnegative and every non-numeric, non-diameter value is 0 or 1. -/
theorem C4_no_core_validation_amended (features : List String)
    (input_data : String → Option ℚ) (numIn selIn : String → ℚ) (d : ℚ)
    (hpresent : ∀ f ∈ features, (input_data f).isSome)
    (hnum : ∀ f, 0 ≤ numIn f) (hsel : ∀ f, selIn f = 0 ∨ selIn f = 1)
    (hd : 0 ≤ d) :
    (input_df input_data features).isSome ∧
    (∀ f, 0 ≤ featureValue d numIn selIn f) ∧
    (∀ f, f ≠ "Nodule diameter" → f ∉ numericFeatures →
      featureValue d numIn selIn f = 0 ∨ featureValue d numIn selIn f = 1) := by
  refine ⟨input_df_isSome features input_data hpresent, ?_, ?_⟩
  · intro f
    unfold featureValue
    split_ifs with h1 h2
    · exact hd
    · exact hnum f
    · rcases hsel f with h | h <;> rw [h] <;> norm_num
  · intro f h1 h2
    unfold featureValue
    rw [if_neg h1, if_neg h2]
    exact hsel f

/-- C4 witness: a concrete in-range instantiation. -/
theorem C4_witness :
    (input_df (fun f => if f = "Age" then some 3 else none) ["Age"]).isSome ∧
    (∀ f, 0 ≤ featureValue 2 (fun _ => 1) (fun _ => 0) f) ∧
    (∀ f, f ≠ "Nodule diameter" → f ∉ numericFeatures →
      featureValue 2 (fun _ => 1) (fun _ => 0) f = 0 ∨
      featureValue 2 (fun _ => 1) (fun _ => 0) f = 1) :=
  C4_no_core_validation_amended ["Age"]
    (fun f => if f = "Age" then some 3 else none) (fun _ => 1) (fun _ => 0) 2
    (by decide) (fun _ => by norm_num) (fun _ => Or.inl rfl) (by norm_num)

/-- C6: once the probability is computed, the attribution step can only
degrade, never fail, the request: the first component of the result is the
probability whatever the SHAP flag or outcome; with SHAP unavailable, with
the SHAP computation raising, or with the slice lookup failing, the result
is exactly (probability, None) — the error is never escalated. -/
theorem C6_attribution_degrades
    (shap_compute : List (String × ℚ) → Except String ShapValues)
    (input_data : String → Option ℚ) (model : ModelHandle)
    (features : List String) (df : List (String × ℚ)) (p : ℚ)
    (hdf : input_df input_data features = some df)
    (hp : malignancy_prob model df = some p) :
    (∀ sa : Bool,
      (predict_and_explain sa shap_compute input_data model features).map
        Prod.fst = some p) ∧
    (predict_and_explain false shap_compute input_data model features
      = some (p, none)) ∧
    (∀ e, shap_compute df = Except.error e →
      predict_and_explain true shap_compute input_data model features
        = some (p, none)) ∧
    (∀ sv, shap_compute df = Except.ok sv → shap_plot_values sv = none →
      predict_and_explain true shap_compute input_data model features
        = some (p, none)) := by
  refine ⟨?_, ?_, ?_, ?_⟩
  · intro sa
    cases sa with
    | false => simp [predict_and_explain, hdf, hp]
    | true =>
      cases hsc : shap_compute df with
      | error e => simp [predict_and_explain, hdf, hp, hsc]
      | ok sv =>
        cases hsv : shap_plot_values sv with
        | none => simp [predict_and_explain, hdf, hp, hsc, hsv]
        | some vals => simp [predict_and_explain, hdf, hp, hsc, hsv]
  · simp [predict_and_explain, hdf, hp]
  · intro e hsc
    simp [predict_and_explain, hdf, hp, hsc]
  · intro sv hsc hsv
    simp [predict_and_explain, hdf, hp, hsc, hsv]

/-- C6 witness: a raising SHAP capability still yields the probability. -/
theorem C6_witness :
    predict_and_explain true (fun _ => Except.error "boom") (fun _ => none)
      ⟨fun _ => [[0, 1/3]]⟩ [] = some (1/3, none) :=
  (C6_attribution_degrades (fun _ => Except.error "boom") (fun _ => none)
    ⟨fun _ => [[0, 1/3]]⟩ [] [] (1/3) rfl rfl).2.2.1 "boom" rfl

/-- C10: `get_user_input` never asks the user for 'Nodule diameter' — it
stores the selection diameter itself (app.py line 87) — so whatever the user
typed elsewhere, the record's 'Nodule diameter' value is the very diameter
used for model selection, and in the assembled row every position holding
'Nodule diameter' carries that diameter: the selected tier and the vector's
diameter component cannot disagree. -/
theorem C10_diameter_consistency (features : List String) (d : ℚ)
    (numIn selIn : String → ℚ) (hmem : "Nodule diameter" ∈ features) :
    dictGet (get_user_input features d numIn selIn) "Nodule diameter"
      = some d ∧
    (features.Nodup →
      ∃ row : List ℚ,
        assembleVector
          (fun f => dictGet (get_user_input features d numIn selIn) f)
          features = some row ∧
        ∀ i (hi : i < features.length),
          features.get ⟨i, hi⟩ = "Nodule diameter" → row.get? i = some d) := by
  have hval : featureValue d numIn selIn "Nodule diameter" = d := by
    simp [featureValue]
  constructor
  · rw [dictGet_get_user_input]
    simp [hmem, hval]
  · intro hnd
    have hvals : ∀ f ∈ features,
        (fun f => dictGet (get_user_input features d numIn selIn) f) f
          = some (featureValue d numIn selIn f) := by
      intro f hf
      simp [dictGet_get_user_input, hf]
    refine ⟨features.map (featureValue d numIn selIn), ?_, ?_⟩
    · unfold assembleVector
      rw [input_df_eq_map features _ (featureValue d numIn selIn) hnd hvals]
      simp [List.map_map, Function.comp]
    · intro i hi hfi
      rw [List.get?_map, List.get?_eq_get hi]
      have hfi' : features[i] = "Nodule diameter" := hfi
      simp [hfi', hval]

/-- C10 witness: a two-feature schema where the user typed 7 everywhere but
the record still carries the selection diameter 5. -/
theorem C10_witness :
    dictGet (get_user_input ["Nodule diameter", "Age"] 5 (fun _ => 7)
      (fun _ => 7)) "Nodule diameter" = some 5 ∧
    ((["Nodule diameter", "Age"] : List String).Nodup →
      ∃ row : List ℚ,
        assembleVector
          (fun f => dictGet (get_user_input ["Nodule diameter", "Age"] 5
            (fun _ => 7) (fun _ => 7)) f)
          ["Nodule diameter", "Age"] = some row ∧
        ∀ i (hi : i < (["Nodule diameter", "Age"] : List String).length),
          (["Nodule diameter", "Age"] : List String).get ⟨i, hi⟩
            = "Nodule diameter" → row.get? i = some 5) :=
  C10_diameter_consistency ["Nodule diameter", "Age"] 5 (fun _ => 7)
    (fun _ => 7) (by decide)

end TEB
